import Mathlib

/-!
Verification of the OPR grading engine.

Shallow embedding of the deterministic scoring engine of this repository:
`src/auto_grading_system.py` (class `AutoGradingSystem`) and the fallback
grader in `src/OPR_시스템_AI.py` (class `BasicGrader`).

Modelling conventions:
* Python strings are embedded as `List Char` (`Str`).
* Python numbers (int/float score arithmetic) are embedded as `ℚ`; the
  score arithmetic of the engine only ever multiplies and adds small
  decimal constants, so exact rational arithmetic is the intended reading.
  The one place where IEEE-754 double rounding is observable,
  `int(len(norm_kw) * 0.7)` in `BasicGrader.fuzzy_match`, is modelled
  bit-exactly over the integers (`pyInt07`).
* Python `dict` (insertion ordered) is embedded as an association list
  with insertion-order preserving update (`dictInsert`).
* Console `print` calls in `BasicGrader.grade_answer` do not influence the
  returned value and are omitted; the Python `NameError` that this function
  can raise is modelled by returning `Except.error`.
-/

/-- Python strings are modelled as lists of unicode characters. -/
abbrev Str := List Char

/-- `str.split('\n')`: split on newline, keeping empty segments;
the result is always nonempty (`"".split('\n') == ['']`). -/
def splitLines : Str → List Str
  | [] => [[]]
  | c :: s =>
    if c = '\n' then [] :: splitLines s
    else (c :: (splitLines s).headD []) :: (splitLines s).tail

/-- The ASCII whitespace characters stripped by Python `str.strip()`
(Unicode-only space characters are not exercised by this repository). -/
def pyIsSpace (c : Char) : Bool :=
  c = ' ' || c = '\t' || c = '\n' || c = '\r' || c = '\x0b' || c = '\x0c'

/-- Python `str.strip()`. -/
def strip (s : Str) : Str :=
  ((s.dropWhile pyIsSpace).reverse.dropWhile pyIsSpace).reverse

/-- Decimal rendering of a natural number, as Python `str(n)`. -/
def natToStr (n : Nat) : Str := (toString n).data

/-- Decimal rendering of an integer, as Python `str(i)`. -/
def intToStr (i : Int) : Str := (toString i).data

/-- Python `', '.join(xs)`. -/
def joinComma (ws : List Str) : Str := (ws.intersperse [',', ' ']).flatten

/-- Python `repr` of a list of ints, e.g. `[1, 2, 3]`. -/
def listRepr (ns : List Nat) : Str := ['['] ++ joinComma (ns.map natToStr) ++ [']']

/-- Round `q * m` to the nearest integer, ties to even (the rounding used by
CPython's `round` and decimal rendering), computed on the reduced
numerator/denominator so that the kernel can evaluate it:
`⌊m·q⌋ = fdiv(m·num, den)` and the fractional part compares to 1/2 as
`2·fmod(m·num, den)` compares to `den`. -/
def roundScaled (m : Int) (q : ℚ) : Int :=
  let n := m * q.num
  let d : Int := (q.den : Int)
  let f := Int.fdiv n d
  let r2 := 2 * Int.fmod n d
  if r2 < d then f else if d < r2 then f + 1 else if f % 2 = 0 then f else f + 1

/-- Python `f"{x:.1f}"`, modelled over the exact rational value of `x`
(the engine's scores; rendering of the binary double is approximated by
rounding the exact rational half-to-even to one decimal). -/
def fmt1 (q : ℚ) : Str :=
  let n := roundScaled 10 q
  let s := n.natAbs
  (if n < 0 then ['-'] else []) ++ natToStr (s / 10) ++ ['.'] ++ natToStr (s % 10)

/-- Python `round(x, 1)` over the exact rational value of `x`. -/
def round1 (q : ℚ) : ℚ := (roundScaled 10 q : ℚ) / 10

/-- Python `hay.count(needle)` auxiliary scan for a nonempty needle:
non-overlapping occurrences, scanning left to right. The first argument is
fuel (structural recursion; every step consumes at least one character of
the scanned string, so fuel = its length suffices). -/
def strCountAux (needle : Str) : Nat → Str → Nat
  | 0, _ => 0
  | _, [] => 0
  | fuel + 1, c :: rest =>
    if needle.isPrefixOf (c :: rest) then
      1 + strCountAux needle fuel (rest.drop (needle.length - 1))
    else
      strCountAux needle fuel rest

/-- Python `hay.count(needle)` (for an empty needle Python counts
`len(hay) + 1` occurrences). -/
def strCount (hay needle : Str) : Nat :=
  if needle = [] then hay.length + 1 else strCountAux needle hay.length hay

-- ===========================================================================
-- src/auto_grading_system.py
-- ===========================================================================

/-- `GradingCriteria` (src/auto_grading_system.py lines 16-23). -/
structure GradingCriteria where
  required_keywords : List Str
  forbidden_keywords : List Str
  max_logic_score : Int := 40
  max_clarity_score : Int := 30
  max_completeness_score : Int := 30

/-- `GradingResult` (src/auto_grading_system.py lines 26-35).
`clarity_score` and `completeness_score` hold grade letters, as in the
source; `keyword_matches` is the insertion-ordered dict. -/
structure GradingResult where
  logic_score : ℚ
  clarity_score : Char
  completeness_score : Char
  total_score : ℚ
  feedback : List Str
  keyword_matches : List (Str × Nat)
  forbidden_found : List Str
deriving DecidableEq

/-- The `grade_to_score` table built in `AutoGradingSystem.__init__`
(S=1.0, A=0.85, B=0.70, C=0.55, D=0.40); any other key would be a Python
`KeyError`, but `grade_answer` only ever looks up the five letters produced
by the evaluators, so the default branch is unreachable there. -/
def grade_to_score : Char → ℚ
  | 'S' => 1
  | 'A' => 17/20
  | 'B' => 7/10
  | 'C' => 11/20
  | 'D' => 2/5
  | _ => 0

/-- Insertion-ordered dict update `m[k] = v` of a Python dict:
overwrite in place if the key exists, else append. -/
def dictInsert (m : List (Str × Nat)) (k : Str) (v : Nat) : List (Str × Nat) :=
  if m.any (fun p => p.1 = k) then
    m.map (fun p => if p.1 = k then (k, v) else p)
  else
    m ++ [(k, v)]

/-- `AutoGradingSystem.calculate_logic_score` (lines 56-89): normalize by
removing spaces, count each required keyword in the normalized answer and
record positive counts in a dict, collect forbidden terms occurring as
substrings, then `max(0, max_logic_score * match_rate - 2 * penalties)`. -/
def calculate_logic_score (answer_text : Str) (criteria : GradingCriteria) :
    ℚ × List (Str × Nat) × List Str :=
  let normalized_answer := answer_text.filter (· ≠ ' ')
  let keyword_matches := criteria.required_keywords.foldl
    (fun m keyword =>
      let normalized_keyword := keyword.filter (· ≠ ' ')
      let count := strCount normalized_answer normalized_keyword
      if count > 0 then dictInsert m keyword count else m) []
  let forbidden_found := criteria.forbidden_keywords.foldl
    (fun acc forbidden =>
      let normalized_forbidden := forbidden.filter (· ≠ ' ')
      if normalized_forbidden <:+: normalized_answer then acc ++ [forbidden] else acc) []
  let match_rate : ℚ :=
    if criteria.required_keywords ≠ [] then
      (keyword_matches.length : ℚ) / (criteria.required_keywords.length : ℚ)
    else 0
  let base_score : ℚ := (criteria.max_logic_score : ℚ) * match_rate
  let penalty : ℚ := (forbidden_found.length : ℚ) * 2
  let final_score := max 0 (base_score - penalty)
  (final_score, keyword_matches, forbidden_found)

/-- A character of the class `\w` of Python `re`, restricted to the
repertoire this repository processes: ASCII alphanumerics, underscore and
Hangul (syllables, jamo and compatibility jamo). -/
def isWordChar (c : Char) : Bool :=
  c.isAlphanum || c = '_' ||
  (0xAC00 ≤ c.toNat && c.toNat ≤ 0xD7A3) ||
  (0x1100 ≤ c.toNat && c.toNat ≤ 0x11FF) ||
  (0x3130 ≤ c.toNat && c.toNat ≤ 0x318F)

/-- One step of the maximal-word-run scanner (processed right to left;
state = (run currently being built, completed runs)). -/
def wordRunsStep (c : Char) (st : Str × List Str) : Str × List Str :=
  if isWordChar c then (c :: st.1, st.2)
  else ([], if st.1 = [] then st.2 else st.1 :: st.2)

/-- Maximal runs of `\w` characters of a text, in order — the matches of
`re.findall(r'[\w]+', ...)`; `re.findall(r'[\w]{2,}', ...)` is the
restriction to runs of length ≥ 2. -/
def wordRuns (s : Str) : List Str :=
  let st := s.foldr wordRunsStep ([], [])
  if st.1 = [] then st.2 else st.1 :: st.2

/-- First-occurrence-ordered deduplication: the iteration order of a Python
dict keyed by the elements of `ws`. -/
def firstOccDedup (ws : List Str) : List Str :=
  ws.foldl (fun acc w => if acc.contains w then acc else acc ++ [w]) []

/-- `AutoGradingSystem._check_repetition` (lines 170-180): words (runs of
`\w` of length ≥ 2) occurring at least 5 times, in first-occurrence order.
(The source's extra `len(word) >= 2` filter is a no-op after the regex.) -/
def _check_repetition (text : Str) : List Str :=
  let words := (wordRuns text).filter (fun w => 2 ≤ w.length)
  (firstOccDedup words).filter (fun w => 5 ≤ words.count w)

/-- `AutoGradingSystem._is_keyword_listing` (lines 182-187): among stripped
non-blank lines, more than half shorter than 15 characters (false when
there is no non-blank line — guarded, no division). -/
def _is_keyword_listing (text : Str) : Bool :=
  let lines := ((splitLines text).map strip).filter (· ≠ [])
  let short_lines := lines.filter (fun l => l.length < 15)
  -- `len(short)/len(lines) > 0.5` under float division is equivalent to
  -- `2·len(short) > len(lines)` for any pair of counts below 2^53.
  if lines ≠ [] then
    decide (2 * short_lines.length > lines.length)
  else false

/-- The grade conversion chain `if score >= 90: 'S' ...` written out (twice,
verbatim) at the end of `evaluate_clarity` and `evaluate_completeness`. -/
def scoreToGrade (score : Int) : Char :=
  if score ≥ 90 then 'S'
  else if score ≥ 80 then 'A'
  else if score ≥ 70 then 'B'
  else if score ≥ 60 then 'C'
  else 'D'

/-- The 1-based indices of lines longer than 35 characters after space
removal (`evaluate_clarity` lines 103-104). -/
def clarity_long_lines (answer_text : Str) : List Nat :=
  ((splitLines answer_text).enum.filter
    (fun p => 35 < (p.2.filter (· ≠ ' ')).length)).map (fun p => p.1 + 1)

/-- The clarity score of `evaluate_clarity` (lines 94-112): base 85, with
the three deductions. The source mutates `score` sequentially; the
deductions are independent, so the mutation is rendered as one subtraction
chain in source order. -/
def clarity_score_val (answer_text : Str) : Int :=
  85 - (if _check_repetition answer_text ≠ [] then 10 else 0)
     - (if clarity_long_lines answer_text ≠ [] then 5 else 0)
     - (if _is_keyword_listing answer_text then 10 else 0)

/-- The feedback list of `evaluate_clarity`, in source append order. -/
def clarity_reasons (answer_text : Str) : List Str :=
  (if _check_repetition answer_text ≠ [] then
    ["반복되는 단어 발견: ".data ++ joinComma ((_check_repetition answer_text).take 3)]
   else [])
  ++ (if clarity_long_lines answer_text ≠ [] then
    ["35자 초과 줄: ".data ++ listRepr ((clarity_long_lines answer_text).take 3)]
   else [])
  ++ (if _is_keyword_listing answer_text then ["단순 키워드 나열식 작성으로 보임".data] else [])

/-- `AutoGradingSystem.evaluate_clarity` (lines 91-126). -/
def evaluate_clarity (answer_text : Str) : Char × List Str :=
  (scoreToGrade (clarity_score_val answer_text), clarity_reasons answer_text)

/-- The title test of `evaluate_completeness`:
`re.search(r'^.{1,21}$', first_line)` on a newline-free line holds exactly
when the line length is in [1, 21]. -/
def hasTitle (first_line : Str) : Bool :=
  decide (1 ≤ first_line.length ∧ first_line.length ≤ 21)

/-- A line matching `^[1-9]\.` : first char a digit 1-9, second a period. -/
def isSectionLine : Str → Bool
  | d :: dot :: _ => decide ('1' ≤ d ∧ d ≤ '9') && dot = '.'
  | _ => false

/-- A line matching `^□`. -/
def isSubsectionLine : Str → Bool
  | c :: _ => c = '□'
  | _ => false

/-- The non-blank lines counted by `evaluate_completeness` line 151. -/
def nonBlankLines (answer_text : Str) : List Str :=
  (splitLines answer_text).filter (fun l => strip l ≠ [])

/-- The completeness score of `evaluate_completeness` (lines 130-154):
base 85, with the four deductions (multiline regexes rendered as per-line
predicates), as one subtraction chain in source order. -/
def completeness_score_val (answer_text : Str) : Int :=
  85 - (if !hasTitle ((splitLines answer_text).headD []) then 5 else 0)
     - (if !(splitLines answer_text).any isSectionLine then 10 else 0)
     - (if !(splitLines answer_text).any isSubsectionLine then 5 else 0)
     - (if (nonBlankLines answer_text).length < 15 then 10 else 0)

/-- The feedback list of `evaluate_completeness`, in source append order. -/
def completeness_reasons (answer_text : Str) : List Str :=
  (if !hasTitle ((splitLines answer_text).headD []) then ["제목이 명확하지 않음".data] else [])
  ++ (if !(splitLines answer_text).any isSectionLine then ["대항목(1, 2, 3) 구조 없음".data] else [])
  ++ (if !(splitLines answer_text).any isSubsectionLine then ["중항목(□) 구조 부족".data] else [])
  ++ (if (nonBlankLines answer_text).length < 15 then
    ["내용이 부족함 (총 ".data ++ natToStr (nonBlankLines answer_text).length ++ "줄)".data]
   else [])

/-- `AutoGradingSystem.evaluate_completeness` (lines 128-168). -/
def evaluate_completeness (answer_text : Str) : Char × List Str :=
  (scoreToGrade (completeness_score_val answer_text), completeness_reasons answer_text)

/-- `AutoGradingSystem.grade_answer` (lines 189-238). -/
def grade_answer (answer_text : Str) (criteria : GradingCriteria) : GradingResult :=
  let logicRes := calculate_logic_score answer_text criteria
  let logic_score := logicRes.1
  let keyword_matches := logicRes.2.1
  let forbidden_found := logicRes.2.2
  let clarityRes := evaluate_clarity answer_text
  let clarity_grade := clarityRes.1
  let completenessRes := evaluate_completeness answer_text
  let completeness_grade := completenessRes.1
  let clarity_score := (criteria.max_clarity_score : ℚ) * grade_to_score clarity_grade
  let completeness_score := (criteria.max_completeness_score : ℚ) * grade_to_score completeness_grade
  let total_score := logic_score + clarity_score + completeness_score
  let feedback : List Str :=
    ["=== 논리·정확성 (".data ++ fmt1 logic_score ++ ['/'] ++
       intToStr criteria.max_logic_score ++ "점) ===".data,
     "키워드 매칭: ".data ++ natToStr keyword_matches.length ++ ['/'] ++
       natToStr criteria.required_keywords.length ++ "개".data]
    ++ (if keyword_matches ≠ [] then
      ["  - 발견된 키워드: ".data ++ joinComma ((keyword_matches.map Prod.fst).take 10)] else [])
    ++ (if forbidden_found ≠ [] then
      ["  ⚠️ 금지어 발견 (-".data ++ natToStr (forbidden_found.length * 2) ++
        "점): ".data ++ joinComma forbidden_found] else [])
    ++ ["\n=== 명확·간결성 (".data ++ [clarity_grade] ++ "등급, ".data ++
       fmt1 clarity_score ++ ['/'] ++ intToStr criteria.max_clarity_score ++ "점) ===".data]
    ++ clarityRes.2
    ++ ["\n=== 완결성 (".data ++ [completeness_grade] ++ "등급, ".data ++
       fmt1 completeness_score ++ ['/'] ++ intToStr criteria.max_completeness_score ++
       "점) ===".data]
    ++ completenessRes.2
    ++ ['\n' :: List.replicate 50 '=']
    ++ ["📊 총점: ".data ++ fmt1 total_score ++ "/100점".data]
  { logic_score := logic_score
    clarity_score := clarity_grade
    completeness_score := completeness_grade
    total_score := total_score
    feedback := feedback
    keyword_matches := keyword_matches
    forbidden_found := forbidden_found }

-- ===========================================================================
-- src/OPR_시스템_AI.py — class BasicGrader (lines 818-972)
-- ===========================================================================

/-- `BasicGrader.normalize_text` (lines 826-835): remove space/tab/newline,
remove the bracket characters `()[]`, lowercase. (Python `str.lower()` is
Unicode-wide; `Char.toLower` agrees with it on the ASCII letters, the only
characters with case that the engine's data contains.) -/
def normalize_text (text : Str) : Str :=
  (((text.filter (fun c => !([' ', '\t', '\n'] : List Char).contains c)).filter
    (fun c => !(['(', ')', '[', ']'] : List Char).contains c)).map Char.toLower)

/-- Python `text.find(char, start)` (first index ≥ `start` holding `char`),
with `none` for Python's `-1`. -/
def findFrom (s : Str) (c : Char) (start : Nat) : Option Nat :=
  match (s.drop start).findIdx? (· = c) with
  | some j => some (start + j)
  | none => none

/-- The forward scan of `BasicGrader.fuzzy_match` (lines 851-858): for each
keyword character in order, search the text from the cursor; a hit bumps the
counter and moves the cursor past the hit, a miss changes nothing.
Returns (matched_chars, text_idx). -/
def fuzzyScan (norm_kw norm_text : Str) : Nat × Nat :=
  norm_kw.foldl
    (fun st ch =>
      match findFrom norm_text ch st.2 with
      | some pos => (st.1 + 1, pos + 1)
      | none => st)
    (0, 0)

/-- Round `a / 2^k` (with `1 ≤ k`) to the nearest integer, ties to even —
the IEEE-754 rounding of a positive value to a shorter mantissa. -/
def roundHalfEvenShift (a k : Nat) : Nat :=
  let q := a / 2 ^ k
  let r := a % 2 ^ k
  let half := 2 ^ (k - 1)
  if r < half then q else if half < r then q + 1 else if q % 2 = 0 then q else q + 1

/-- `⌊log₂ n⌋` (0 for n = 0), by fuel-driven structural recursion so that
the kernel can evaluate it. -/
def log2Fuel : Nat → Nat → Nat
  | 0, _ => 0
  | fuel + 1, n => if n ≥ 2 then log2Fuel fuel (n / 2) + 1 else 0

/-- Bit-exact model of Python `int(n * 0.7)`: the double closest to 0.7 is
`3152519739159347 / 2^52`; the product with `n` is rounded to 53 bits of
mantissa (ties to even) and then truncated. Differs from `⌊7n/10⌋` first at
`n = 90`, where the rounded product is slightly below 63. -/
def pyInt07 (n : Nat) : Nat :=
  let P := n * 3152519739159347
  let L := log2Fuel P P
  if L ≤ 52 then P / 2 ^ 52
  else roundHalfEvenShift P (L - 52) * 2 ^ (L - 52) / 2 ^ 52

/-- `BasicGrader.fuzzy_match` (lines 837-861). -/
def fuzzy_match (keyword text : Str) : Bool :=
  let norm_kw := normalize_text keyword
  let norm_text := normalize_text text
  if norm_kw <:+: norm_text then true
  else if norm_kw.length < 3 then false
  else
    let required_chars := max 3 (pyInt07 norm_kw.length)
    (fuzzyScan norm_kw norm_text).1 ≥ required_chars

/-- The `논리정확성` section of the dict returned by
`BasicGrader.grade_answer`. -/
structure BGLogic where
  score : ℚ
  matched : List Str
  missing : List Str
  forbidden_found : List Str
  well_done : List Str
  lacking : List Str
  feedback : Str
deriving DecidableEq

/-- The dict returned by `BasicGrader.grade_answer` (lines 932-971);
the `명확간결성`/`완결성`/`종합_평가` sections are flattened into fields. -/
structure BGResult where
  total : ℚ
  logic : BGLogic
  clarity_grade : Str
  clarity_score : ℚ
  clarity_well_done : List Str
  completeness_grade : Str
  completeness_score : ℚ
  completeness_well_done : List Str
  completeness_lacking : List Str
  strengths : List Str
  weaknesses : List Str
  supplement : List Str
deriving DecidableEq

/-- `BasicGrader.grade_answer` (lines 863-972). The local `keyword_ratio`
is bound only inside `if len(keywords) > 0:`, yet the `피드백` f-string of
the `논리정확성` dict always reads it; with an empty keyword list CPython
raises `NameError` while evaluating the returned dict literal, modelled as
`Except.error`. Console prints are omitted (they do not affect the value). -/
def basicGradeAnswer (answer_text : Str) (keywords forbidden : List Str) :
    Except Str BGResult :=
  let matched := keywords.filter (fun kw => fuzzy_match kw answer_text)
  let missing := keywords.filter (fun kw => !fuzzy_match kw answer_text)
  let found_forbidden := forbidden.filter (fun w => fuzzy_match w answer_text)
  let keywordRate : Option ℚ :=
    if keywords.length > 0 then some ((matched.length : ℚ) / (keywords.length : ℚ)) else none
  let logic_score0 : ℚ :=
    match keywordRate with
    | some r => 40 * r
    | none => 0
  let logic_score : ℚ := max 0 (logic_score0 - (found_forbidden.length : ℚ) * 2)
  let lines := splitLines (strip answer_text)
  let line_count := (lines.filter (fun l => strip l ≠ [])).length
  let completenessSC : ℚ × Str :=
    if line_count ≥ 15 then (22, "B".data)
    else if line_count ≥ 10 then (18, "C".data)
    else (14, "D".data)
  let clarity_score : ℚ := 21
  let total := logic_score + clarity_score + completenessSC.1
  let well_done : List Str :=
    (if matched.length > 0 then
      [natToStr matched.length ++ "개 키워드를 포함함".data] else [])
    ++ (if (matched.length : ℚ) ≥ (keywords.length : ℚ) * (7/10) then
      ["70% 이상의 키워드를 포함하여 기본 내용을 충실히 작성".data] else [])
  let lacking : List Str :=
    (if missing.length > 0 then
      [natToStr missing.length ++ "개 키워드 누락".data] else [])
    ++ (if (missing.length : ℚ) ≥ (keywords.length : ℚ) * (3/10) then
      ["중요 키워드가 많이 누락됨".data] else [])
    ++ (if found_forbidden.length > 0 then
      ["금지어 ".data ++ natToStr found_forbidden.length ++ "개 사용으로 ".data ++
        natToStr (found_forbidden.length * 2) ++ "점 감점".data] else [])
  match keywordRate with
  | none => Except.error "NameError: name 'keyword_ratio' is not defined".data
  | some r =>
    Except.ok
      { total := round1 total
        logic :=
          { score := round1 logic_score
            matched := matched
            missing := missing
            forbidden_found := found_forbidden
            well_done := well_done
            lacking := lacking
            feedback :=
              natToStr matched.length ++ ['/'] ++ natToStr keywords.length ++
              "개 키워드 매칭 (".data ++ intToStr (roundScaled 100 r) ++ "%)".data }
        clarity_grade := "B".data
        clarity_score := clarity_score
        clarity_well_done := ["기본적인 문장 구성".data]
        completeness_grade := completenessSC.2
        completeness_score := completenessSC.1
        completeness_well_done :=
          if line_count ≥ 10 then [natToStr line_count ++ "줄 작성".data] else []
        completeness_lacking :=
          if line_count < 15 then ["최소 15줄 이상 작성 권장".data] else []
        strengths := if well_done ≠ [] then well_done else ["답안을 작성함".data]
        weaknesses :=
          (if lacking ≠ [] then lacking
           else ["AI 채점을 사용하면 더 정확한 피드백을 받을 수 있습니다".data])
          ++ ["⚙️ Gemini API 키를 설정하면 상세한 피드백을 받을 수 있습니다".data]
        supplement :=
          ["누락된 키워드 ".data ++ natToStr missing.length ++ "개를 추가하세요: ".data ++
            joinComma (missing.take 3) ++ (if missing.length > 3 then "...".data else []),
           "API 설정 메뉴에서 Gemini API 키를 입력하세요".data] }

-- ===========================================================================
-- Helper lemmas
-- ===========================================================================

/-- The match rate of `calculate_logic_score` (line 82), expressed through
the returned components. -/
def match_rate (t : Str) (c : GradingCriteria) : ℚ :=
  if c.required_keywords ≠ [] then
    ((calculate_logic_score t c).2.1.length : ℚ) / (c.required_keywords.length : ℚ)
  else 0

theorem calculate_logic_score_fst (t : Str) (c : GradingCriteria) :
    (calculate_logic_score t c).1 =
      max 0 ((c.max_logic_score : ℚ) * match_rate t c -
        ((calculate_logic_score t c).2.2.length : ℚ) * 2) := rfl

theorem dictInsert_length_le (m : List (Str × Nat)) (k : Str) (v : Nat) :
    (dictInsert m k v).length ≤ m.length + 1 := by
  unfold dictInsert
  split_ifs <;> simp

theorem foldl_length_le (f : List (Str × Nat) → Str → List (Str × Nat))
    (hf : ∀ m k, (f m k).length ≤ m.length + 1) :
    ∀ (l : List Str) (acc : List (Str × Nat)),
      (l.foldl f acc).length ≤ acc.length + l.length := by
  intro l
  induction l with
  | nil => simp
  | cons k l ih =>
    intro acc
    calc ((k :: l).foldl f acc).length = (l.foldl f (f acc k)).length := rfl
    _ ≤ (f acc k).length + l.length := ih _
    _ ≤ (acc.length + 1) + l.length := by have := hf acc k; omega
    _ = acc.length + (k :: l).length := by simp [List.length_cons]; omega

theorem keyword_matches_length_le (t : Str) (c : GradingCriteria) :
    (calculate_logic_score t c).2.1.length ≤ c.required_keywords.length := by
  have h := foldl_length_le
    (fun m keyword =>
      let normalized_keyword := keyword.filter (· ≠ ' ')
      let count := strCount (t.filter (· ≠ ' ')) normalized_keyword
      if count > 0 then dictInsert m keyword count else m)
    (by
      intro m k
      dsimp only
      split_ifs
      · exact dictInsert_length_le _ _ _
      · omega)
    c.required_keywords []
  have h2 : (calculate_logic_score t c).2.1.length ≤
      ([] : List (Str × Nat)).length + c.required_keywords.length := h
  simpa using h2

theorem match_rate_nonneg (t : Str) (c : GradingCriteria) : 0 ≤ match_rate t c := by
  unfold match_rate
  split_ifs
  · positivity
  · norm_num

theorem match_rate_le_one (t : Str) (c : GradingCriteria) : match_rate t c ≤ 1 := by
  unfold match_rate
  split_ifs with h
  · have hlen : 0 < c.required_keywords.length := List.length_pos.mpr h
    rw [div_le_one (by exact_mod_cast hlen)]
    exact_mod_cast keyword_matches_length_le t c
  · norm_num

theorem scoreToGrade_ne_S (s : Int) (h : s ≤ 85) : scoreToGrade s ≠ 'S' := by
  unfold scoreToGrade
  split_ifs with h1 <;> first | omega | decide

theorem grade_to_score_scoreToGrade_mem (s : Int) :
    2/5 ≤ grade_to_score (scoreToGrade s) ∧ grade_to_score (scoreToGrade s) ≤ 1 := by
  unfold scoreToGrade
  split_ifs <;> norm_num [grade_to_score]

theorem clarity_score_val_le (t : Str) : clarity_score_val t ≤ 85 := by
  unfold clarity_score_val
  split_ifs <;> omega

theorem completeness_score_val_le (t : Str) : completeness_score_val t ≤ 85 := by
  unfold completeness_score_val
  split_ifs <;> omega

theorem grade_answer_total_eq (t : Str) (c : GradingCriteria) :
    (grade_answer t c).total_score =
      (calculate_logic_score t c).1 +
      (c.max_clarity_score : ℚ) * grade_to_score (evaluate_clarity t).1 +
      (c.max_completeness_score : ℚ) * grade_to_score (evaluate_completeness t).1 := rfl

theorem grade_answer_logic_eq (t : Str) (c : GradingCriteria) :
    (grade_answer t c).logic_score = (calculate_logic_score t c).1 := rfl

theorem grade_answer_clarity_eq (t : Str) (c : GradingCriteria) :
    (grade_answer t c).clarity_score = scoreToGrade (clarity_score_val t) := rfl

theorem grade_answer_completeness_eq (t : Str) (c : GradingCriteria) :
    (grade_answer t c).completeness_score = scoreToGrade (completeness_score_val t) := rfl

theorem splitLines_ne_nil (s : Str) : splitLines s ≠ [] := by
  induction s with
  | nil => simp [splitLines]
  | cons c s ih =>
    unfold splitLines
    split_ifs <;> simp

theorem mem_splitLines {s l : Str} {c : Char}
    (hl : l ∈ splitLines s) (hc : c ∈ l) : c ∈ s := by
  induction s generalizing l with
  | nil =>
    simp only [splitLines, List.mem_singleton] at hl
    subst hl
    simp at hc
  | cons a s ih =>
    unfold splitLines at hl
    by_cases ha : a = '\n'
    · rw [if_pos ha] at hl
      rcases List.mem_cons.mp hl with h1 | h1
      · subst h1; simp at hc
      · exact List.mem_cons_of_mem a (ih h1 hc)
    · rw [if_neg ha] at hl
      rcases List.mem_cons.mp hl with h1 | h1
      · subst h1
        rcases List.mem_cons.mp hc with h2 | h2
        · rw [h2]; exact List.mem_cons_self _ _
        · refine List.mem_cons_of_mem a (ih ?_ h2)
          rcases hsp : splitLines s with _ | ⟨ln, rest⟩
          · exact absurd hsp (splitLines_ne_nil s)
          · simp [hsp]
      · refine List.mem_cons_of_mem a (ih (List.mem_of_mem_tail h1) hc)

theorem strip_eq_nil_of_space {l : Str} (h : ∀ c ∈ l, pyIsSpace c = true) :
    strip l = [] := by
  unfold strip
  have h1 : l.dropWhile pyIsSpace = [] := List.dropWhile_eq_nil_iff.mpr h
  rw [h1]
  simp

theorem pyIsSpace_not_word {c : Char} (h : pyIsSpace c = true) :
    isWordChar c = false := by
  have h' : c = ' ' ∨ c = '\t' ∨ c = '\n' ∨ c = '\r' ∨ c = '\x0b' ∨ c = '\x0c' := by
    simpa [pyIsSpace, or_assoc] using h
  rcases h' with rfl | rfl | rfl | rfl | rfl | rfl <;> decide

theorem wordRuns_foldr_nil :
    ∀ t : Str, (∀ c ∈ t, isWordChar c = false) →
      t.foldr wordRunsStep ([], []) = ([], []) := by
  intro t
  induction t with
  | nil => intro _; rfl
  | cons c s ih =>
    intro h
    rw [List.foldr_cons, ih (fun x hx => h x (List.mem_cons_of_mem c hx))]
    unfold wordRunsStep
    rw [h c (List.mem_cons_self c s)]
    simp

theorem check_repetition_eq_nil {t : Str} (h : ∀ c ∈ t, isWordChar c = false) :
    _check_repetition t = [] := by
  have hw : wordRuns t = [] := by
    unfold wordRuns
    rw [wordRuns_foldr_nil t h]
    rfl
  unfold _check_repetition
  rw [hw]
  rfl

theorem clarity_long_lines_eq_nil {t : Str}
    (h : ∀ l ∈ splitLines t, (l.filter (· ≠ ' ')).length ≤ 35) :
    clarity_long_lines t = [] := by
  unfold clarity_long_lines
  rw [List.map_eq_nil_iff, List.filter_eq_nil_iff]
  intro p hp
  have hmem : p.2 ∈ splitLines t := by
    have := List.mem_enum_iff_getElem?.mp hp
    exact List.getElem?_mem this
  have := h p.2 hmem
  simpa using this

theorem keyword_listing_false {t : Str} (h : ∀ l ∈ splitLines t, strip l = []) :
    _is_keyword_listing t = false := by
  unfold _is_keyword_listing
  have hnil : ((splitLines t).map strip).filter (· ≠ []) = [] := by
    rw [List.filter_eq_nil_iff]
    intro x hx
    rcases List.mem_map.mp hx with ⟨l, hl, rfl⟩
    simp [h l hl]
  rw [hnil]
  simp

-- ===========================================================================
-- Claim theorems
-- ===========================================================================

/-- C2: every `GradingResult` returned by `grade_answer` satisfies
`total_score = logic_score + max_clarity_score·mult(clarity_grade) +
max_completeness_score·mult(completeness_grade)`, with the multiplier table
S=1.00, A=0.85, B=0.70, C=0.55, D=0.40. -/
theorem C2_total_score_invariant (t : Str) (c : GradingCriteria) :
    (grade_answer t c).total_score =
      (grade_answer t c).logic_score +
      (c.max_clarity_score : ℚ) * grade_to_score (grade_answer t c).clarity_score +
      (c.max_completeness_score : ℚ) * grade_to_score (grade_answer t c).completeness_score ∧
    grade_to_score 'S' = 1 ∧ grade_to_score 'A' = 0.85 ∧ grade_to_score 'B' = 0.70 ∧
    grade_to_score 'C' = 0.55 ∧ grade_to_score 'D' = 0.40 := by
  refine ⟨rfl, ?_, ?_, ?_, ?_, ?_⟩ <;> norm_num [grade_to_score]

/-- C3: no answer text can earn grade S from `evaluate_clarity` or
`evaluate_completeness`: both start from base score 85 and only deduct,
and the S threshold is 90. -/
theorem C3_grade_S_unreachable (t : Str) :
    (evaluate_clarity t).1 ≠ 'S' ∧ (evaluate_completeness t).1 ≠ 'S' :=
  ⟨scoreToGrade_ne_S _ (clarity_score_val_le t),
   scoreToGrade_ne_S _ (completeness_score_val_le t)⟩

/-- C4: `calculate_logic_score` returns
`max(0, max_logic_score · match_rate − 2·|forbidden_found|)` (each detected
forbidden term costs exactly 2 points, floored at 0), and `match_rate ≤ 1`,
so no upper clamp is needed. -/
theorem C4_logic_score_formula (t : Str) (c : GradingCriteria) :
    (calculate_logic_score t c).1 =
      max 0 ((c.max_logic_score : ℚ) * match_rate t c -
        2 * ((calculate_logic_score t c).2.2.length : ℚ)) ∧
    match_rate t c ≤ 1 := by
  refine ⟨?_, match_rate_le_one t c⟩
  rw [calculate_logic_score_fst]
  ring_nf

/-- C5: with an empty `required_keywords` list, `AutoGradingSystem` yields
`match_rate = 0` and `logic_score = 0` without any division fault; but the
engine's fallback grader `BasicGrader.grade_answer` raises `NameError` on
an empty keyword list — its `keyword_ratio` local is bound only inside
`if len(keywords) > 0:` yet is read unconditionally by the `피드백`
f-string — so "no exception is raised anywhere in the engine" fails on the
code as written (the guard shows the no-exception behaviour is the intent). -/
theorem C5_empty_required_keywords :
    (∀ (t : Str) (fb : List Str) (ml mc mp : Int),
      match_rate t ⟨[], fb, ml, mc, mp⟩ = 0 ∧
      (calculate_logic_score t ⟨[], fb, ml, mc, mp⟩).1 = 0) ∧
    (∀ (t : Str) (forb : List Str),
      basicGradeAnswer t [] forb =
        Except.error "NameError: name 'keyword_ratio' is not defined".data) := by
  constructor
  · intro t fb ml mc mp
    have hr : match_rate t ⟨[], fb, ml, mc, mp⟩ = 0 := by
      unfold match_rate
      simp
    refine ⟨hr, ?_⟩
    rw [calculate_logic_score_fst, hr]
    have hpen : (0:ℚ) ≤
        ((calculate_logic_score t ⟨[], fb, ml, mc, mp⟩).2.2.length : ℚ) * 2 := by positivity
    rw [mul_zero, zero_sub]
    exact max_eq_left (by linarith)
  · intro t forb
    rfl

/-- C8: `grade_answer` is a pure deterministic function — it is embedded as
a total Lean function (no I/O, randomness, or mutable state in its body),
and identical inputs give identical `GradingResult` values. -/
theorem C8_deterministic (t1 t2 : Str) (c1 c2 : GradingCriteria)
    (ht : t1 = t2) (hc : c1 = c2) : grade_answer t1 c1 = grade_answer t2 c2 := by
  subst ht
  subst hc
  rfl

theorem C8_deterministic_witness :
    grade_answer "전력망".data ⟨["전력망".data], ["코로나".data], 40, 30, 30⟩ =
      grade_answer "전력망".data ⟨["전력망".data], ["코로나".data], 40, 30, 30⟩ :=
  C8_deterministic _ _ _ _ rfl rfl

/-- C9: on the empty answer text the first line is empty, fails the title
check (`^.{1,21}$` needs at least one character), and the −5 title
deduction fires (85−5−10−5−10 = 55, grade D), with the "제목이 명확하지
않음" reason reported. -/
theorem C9_empty_first_line :
    (splitLines []).headD [] = [] ∧
    hasTitle ((splitLines []).headD []) = false ∧
    completeness_score_val [] = 55 ∧
    "제목이 명확하지 않음".data ∈ completeness_reasons [] ∧
    (evaluate_completeness []).1 = 'D' := by
  decide

/-- C10 (counterexample): a line of 36 tab characters is whitespace-only
yet longer than 35 characters after space removal, so `evaluate_clarity`
fires the long-line deduction: the reason list is not empty. -/
theorem C10_whitespace_counterexample :
    (List.replicate 36 '\t').all pyIsSpace = true ∧
    evaluate_clarity (List.replicate 36 '\t') ≠ ('A', []) := by
  decide

/-- C10 (amended): for every answer text consisting only of whitespace in
which every line has at most 35 non-space characters, `evaluate_clarity`
fires no deductions — no repeated tokens, no long line, and the
keyword-listing check is guarded to return false with no non-blank lines —
so the score stays at the base 85 and the result is grade A with an empty
reason list. -/
theorem C10_blank_text_clarity (t : Str)
    (hsp : t.all pyIsSpace = true)
    (hlen : (splitLines t).all (fun l => decide ((l.filter (· ≠ ' ')).length ≤ 35)) = true) :
    evaluate_clarity t = ('A', []) := by
  have hsp' : ∀ c ∈ t, pyIsSpace c = true := by
    simpa [List.all_eq_true] using hsp
  have hlen' : ∀ l ∈ splitLines t, (l.filter (· ≠ ' ')).length ≤ 35 := by
    intro l hl
    have := List.all_eq_true.mp hlen l hl
    simpa using this
  have h1 : _check_repetition t = [] :=
    check_repetition_eq_nil (fun c hc => pyIsSpace_not_word (hsp' c hc))
  have h2 : clarity_long_lines t = [] := clarity_long_lines_eq_nil hlen'
  have h3 : _is_keyword_listing t = false :=
    keyword_listing_false
      (fun l hl => strip_eq_nil_of_space (fun c hc => hsp' c (mem_splitLines hl hc)))
  unfold evaluate_clarity clarity_score_val clarity_reasons
  rw [h1, h2, h3]
  decide

theorem C10_blank_text_clarity_witness :
    evaluate_clarity " \n ".data = ('A', []) :=
  C10_blank_text_clarity _ (by decide) (by decide)

/-- C6: `grade_answer` keeps `logic_score ∈ [0, max_logic_score]`, each of
the clarity/completeness point contributions in `[0.40·max, 1.00·max]`, and
with the default maxima 40/30/30 the total score lies in [24, 100]. -/
theorem C6_score_bounds (t : Str) (c : GradingCriteria)
    (h1 : 0 ≤ c.max_logic_score) (h2 : 0 ≤ c.max_clarity_score)
    (h3 : 0 ≤ c.max_completeness_score) :
    (0 ≤ (grade_answer t c).logic_score ∧
      (grade_answer t c).logic_score ≤ (c.max_logic_score : ℚ)) ∧
    (0.4 * (c.max_clarity_score : ℚ) ≤
        (c.max_clarity_score : ℚ) * grade_to_score (grade_answer t c).clarity_score ∧
      (c.max_clarity_score : ℚ) * grade_to_score (grade_answer t c).clarity_score ≤
        1 * (c.max_clarity_score : ℚ)) ∧
    (0.4 * (c.max_completeness_score : ℚ) ≤
        (c.max_completeness_score : ℚ) *
          grade_to_score (grade_answer t c).completeness_score ∧
      (c.max_completeness_score : ℚ) *
          grade_to_score (grade_answer t c).completeness_score ≤
        1 * (c.max_completeness_score : ℚ)) ∧
    (c.max_logic_score = 40 → c.max_clarity_score = 30 → c.max_completeness_score = 30 →
      24 ≤ (grade_answer t c).total_score ∧ (grade_answer t c).total_score ≤ 100) := by
  have hml : (0:ℚ) ≤ (c.max_logic_score : ℚ) := by exact_mod_cast h1
  have hmc : (0:ℚ) ≤ (c.max_clarity_score : ℚ) := by exact_mod_cast h2
  have hmp : (0:ℚ) ≤ (c.max_completeness_score : ℚ) := by exact_mod_cast h3
  have hl0 : 0 ≤ (calculate_logic_score t c).1 := by
    rw [calculate_logic_score_fst]
    exact le_max_left _ _
  have hpen : (0:ℚ) ≤ ((calculate_logic_score t c).2.2.length : ℚ) * 2 := by positivity
  have hb : (c.max_logic_score : ℚ) * match_rate t c ≤ (c.max_logic_score : ℚ) := by
    have := mul_le_mul_of_nonneg_left (match_rate_le_one t c) hml
    simpa using this
  have hl1 : (calculate_logic_score t c).1 ≤ (c.max_logic_score : ℚ) := by
    rw [calculate_logic_score_fst]
    exact max_le hml (by linarith)
  have hgc := grade_to_score_scoreToGrade_mem (clarity_score_val t)
  have hgp := grade_to_score_scoreToGrade_mem (completeness_score_val t)
  have e04 : (0.4 : ℚ) = 2/5 := by norm_num
  have hcb1 : 0.4 * (c.max_clarity_score : ℚ) ≤
      (c.max_clarity_score : ℚ) * grade_to_score (scoreToGrade (clarity_score_val t)) := by
    calc 0.4 * (c.max_clarity_score : ℚ) = (c.max_clarity_score : ℚ) * (2/5) := by
          rw [e04, mul_comm]
    _ ≤ _ := mul_le_mul_of_nonneg_left hgc.1 hmc
  have hcb2 : (c.max_clarity_score : ℚ) * grade_to_score (scoreToGrade (clarity_score_val t)) ≤
      1 * (c.max_clarity_score : ℚ) := by
    rw [one_mul]
    calc (c.max_clarity_score : ℚ) * grade_to_score (scoreToGrade (clarity_score_val t)) ≤
        (c.max_clarity_score : ℚ) * 1 := mul_le_mul_of_nonneg_left hgc.2 hmc
    _ = _ := mul_one _
  have hpb1 : 0.4 * (c.max_completeness_score : ℚ) ≤
      (c.max_completeness_score : ℚ) *
        grade_to_score (scoreToGrade (completeness_score_val t)) := by
    calc 0.4 * (c.max_completeness_score : ℚ) = (c.max_completeness_score : ℚ) * (2/5) := by
          rw [e04, mul_comm]
    _ ≤ _ := mul_le_mul_of_nonneg_left hgp.1 hmp
  have hpb2 : (c.max_completeness_score : ℚ) *
      grade_to_score (scoreToGrade (completeness_score_val t)) ≤
      1 * (c.max_completeness_score : ℚ) := by
    rw [one_mul]
    calc (c.max_completeness_score : ℚ) *
        grade_to_score (scoreToGrade (completeness_score_val t)) ≤
        (c.max_completeness_score : ℚ) * 1 := mul_le_mul_of_nonneg_left hgp.2 hmp
    _ = _ := mul_one _
  refine ⟨⟨hl0, hl1⟩, ⟨hcb1, hcb2⟩, ⟨hpb1, hpb2⟩, ?_⟩
  intro e1 e2 e3
  have ht : (grade_answer t c).total_score =
      (calculate_logic_score t c).1 +
      (c.max_clarity_score : ℚ) * grade_to_score (scoreToGrade (clarity_score_val t)) +
      (c.max_completeness_score : ℚ) *
        grade_to_score (scoreToGrade (completeness_score_val t)) := rfl
  rw [e1] at hl1
  rw [e2] at hcb1 hcb2
  rw [e3] at hpb1 hpb2
  rw [ht, e2, e3]
  push_cast at hl1 hcb1 hcb2 hpb1 hpb2 ⊢
  norm_num at hcb1 hpb1
  constructor <;> linarith

theorem C6_score_bounds_witness :
    0 ≤ (grade_answer [] ⟨[], [], 40, 30, 30⟩).logic_score ∧
    24 ≤ (grade_answer [] ⟨[], [], 40, 30, 30⟩).total_score ∧
    (grade_answer [] ⟨[], [], 40, 30, 30⟩).total_score ≤ 100 := by
  have h := C6_score_bounds [] ⟨[], [], 40, 30, 30⟩ (by norm_num) (by norm_num) (by norm_num)
  exact ⟨h.1.1, (h.2.2.2 rfl rfl rfl).1, (h.2.2.2 rfl rfl rfl).2⟩

set_option maxRecDepth 40000 in
/-- C1 (counterexample): for a keyword of normalized length 90 the source
computes `required = max(3, int(90·0.7)) = 62` (IEEE double arithmetic),
not `max(3, ⌊0.7·90⌋) = 63`: with 62 scan hits and no substring match,
`fuzzy_match` returns true although the claim's formula demands false. -/
theorem C1_floor_counterexample :
    fuzzy_match (List.replicate 89 'a' ++ ['b']) (List.replicate 62 'a') = true ∧
    ¬ (normalize_text (List.replicate 89 'a' ++ ['b']) <:+:
        normalize_text (List.replicate 62 'a')) ∧
    (normalize_text (List.replicate 89 'a' ++ ['b'])).length = 90 ∧
    (fuzzyScan (normalize_text (List.replicate 89 'a' ++ ['b']))
        (normalize_text (List.replicate 62 'a'))).1 = 62 ∧
    max 3 (7 * 90 / 10) = 63 := by
  decide

set_option maxRecDepth 40000 in
/-- C1 (amended): `fuzzy_match(keyword, text)` is true iff the normalized
keyword is a substring of the normalized text, or the normalized keyword
has length at least 3 and the single forward scan yields a counter of at
least `max(3, int(0.7 × length))` computed in double-precision arithmetic
(`pyInt07`) — which coincides with `⌊0.7 × length⌋` for every length up to
89; in particular a keyword whose normalized form is shorter than 3
characters can only match via the exact-substring path. -/
theorem C1_fuzzy_match_characterization (kw t : Str) :
    (fuzzy_match kw t = true ↔
      (normalize_text kw <:+: normalize_text t) ∨
      (3 ≤ (normalize_text kw).length ∧
        max 3 (pyInt07 (normalize_text kw).length) ≤
          (fuzzyScan (normalize_text kw) (normalize_text t)).1)) ∧
    (List.range 90).all (fun n => decide (pyInt07 n = 7 * n / 10)) = true := by
  refine ⟨?_, by decide⟩
  unfold fuzzy_match
  by_cases hinf : normalize_text kw <:+: normalize_text t
  · simp [hinf]
  · rw [if_neg hinf]
    by_cases hlen : (normalize_text kw).length < 3
    · simp only [if_pos hlen]
      constructor
      · intro h
        exact absurd h (by simp)
      · intro h
        rcases h with h | ⟨h3, _⟩
        · exact absurd h hinf
        · omega
    · simp only [if_neg hlen, ge_iff_le, decide_eq_true_eq]
      constructor
      · intro h
        exact Or.inr ⟨by omega, h⟩
      · intro h
        rcases h with h | ⟨_, h⟩
        · exact absurd h hinf
        · exact h

/-- C7 (counterexample): `normalize_text` identifies "A" and "a", but
`AutoGradingSystem.calculate_logic_score` compares keywords after removing
spaces only — so its keyword matching is case-sensitive, contradicting
"applied before every required-keyword comparison". -/
theorem C7_case_sensitivity_counterexample :
    normalize_text "A".data = normalize_text "a".data ∧
    (calculate_logic_score "A".data ⟨["A".data], [], 40, 30, 30⟩).2.1 =
      [("A".data, 1)] ∧
    (calculate_logic_score "a".data ⟨["A".data], [], 40, 30, 30⟩).2.1 = [] ∧
    (calculate_logic_score "a".data ⟨["A".data], [], 40, 30, 30⟩).1 = 0 := by
  refine ⟨by decide, by decide, by decide, ?_⟩
  have hm : (calculate_logic_score "a".data ⟨["A".data], [], 40, 30, 30⟩).2.1 = [] := by
    decide
  have hf : (calculate_logic_score "a".data ⟨["A".data], [], 40, 30, 30⟩).2.2 = [] := by
    decide
  have hr : match_rate "a".data ⟨["A".data], [], 40, 30, 30⟩ = 0 := by
    unfold match_rate
    rw [hm]
    simp
  rw [calculate_logic_score_fst, hr, hf]
  simp

/-- C7 (amended): `normalize_text` removes every space, tab, newline and
the bracket characters `()[]` and lowercases (a total deterministic
function; equivalently one filter over the seven characters followed by
lowercasing); the BasicGrader matcher `fuzzy_match` — used for every
required-keyword and forbidden-term comparison of `BasicGrader` — depends
only on the normalized keyword and text, so that matching is whitespace-,
case- and bracket-insensitive; `AutoGradingSystem.calculate_logic_score`
instead normalizes by removing only space characters, so its matching is
only space-insensitive (and in particular case-sensitive). -/
theorem C7_normalization_scope :
    (∀ t : Str, normalize_text t =
      (t.filter
        (fun c => !([' ', '\t', '\n', '(', ')', '[', ']'] : List Char).contains c)).map
        Char.toLower) ∧
    (∀ kw kw' t t' : Str, normalize_text kw = normalize_text kw' →
      normalize_text t = normalize_text t' →
      fuzzy_match kw t = fuzzy_match kw' t') ∧
    (∀ (t t' : Str) (c : GradingCriteria),
      t.filter (· ≠ ' ') = t'.filter (· ≠ ' ') →
      calculate_logic_score t c = calculate_logic_score t' c) := by
  refine ⟨?_, ?_, ?_⟩
  · intro t
    unfold normalize_text
    rw [List.filter_filter]
    congr 1
    apply List.filter_congr
    intro c _
    simp only [List.contains_cons, List.contains_nil, Bool.or_false, Bool.not_or,
      Bool.and_assoc, Bool.and_comm, Bool.and_left_comm]
  · intro kw kw' t t' h1 h2
    unfold fuzzy_match
    rw [h1, h2]
  · intro t t' c h
    unfold calculate_logic_score
    rw [h]

theorem C7_normalization_scope_witness :
    fuzzy_match "A]".data "untext".data = fuzzy_match " (a".data "untext".data ∧
    calculate_logic_score "a b".data ⟨[], [], 40, 30, 30⟩ =
      calculate_logic_score "ab ".data ⟨[], [], 40, 30, 30⟩ :=
  ⟨C7_normalization_scope.2.1 _ _ _ _ (by decide) rfl,
   C7_normalization_scope.2.2 _ _ _ (by decide)⟩
